import Mathlib

/-!
Shallow embedding of `src/frontend/src/views/AccelerateView.vue` from the
voltaML-fast-stable-diffusion frontend.

The view is a declarative UI component over an in-memory list of model
records (`modelData`) and a tag-to-color mapping (`tagColor`), both imported
from the external module `@/core/models` (not part of this repository slice),
so they appear here as parameters.  Script-level functions of the view
(`tagsFilterOptions`, `tagsFilter`, `getTagColor`, `getPluginOptions`,
`createColumns2`) are embedded as pure Lean functions; the component's
reactive state (`customModel`, `columnsRef`, `dataRef`, `pagination`) is a
state record, and the click handlers wired in the template become a step
function from events to a new state plus a list of browser effects
(console logging, window opening).
-/

/-- A model record, as used by the view: the fields of the `Model` type
imported from `@/core/models` that this file reads. -/
structure Model where
  name : String
  huggingface_id : String
  huggingface_url : String
  tags : List String
  example_image_url : String
deriving DecidableEq, Repr

/-- A filter option object as constructed by `tagsFilterOptions`:
`{ label: tag, value: tag }`.  JavaScript objects are compared by reference,
so each option carries an allocation identifier `refId` modelling its heap
reference: every evaluation of the object literal yields a fresh one. -/
structure FilterOption where
  refId : Nat
  label : String
  value : String
deriving DecidableEq, Repr

/-- JS `Array.prototype.includes` on an array of objects: SameValueZero
comparison, which for two objects holds exactly when they are the same
reference. -/
def jsIncludes (xs : List FilterOption) (x : FilterOption) : Bool :=
  xs.any (fun y => y.refId == x.refId)

/-- One iteration layer of `tagsFilterOptions`: the inner
`model.tags.forEach` loop.  The accumulator carries the `tags` array built so
far together with the allocation counter for fresh object references; the
object literal `{ label: tag, value: tag }` is evaluated once per tag and gets
a fresh reference. -/
def tagsFilterOptionsAux (tags : List String) (acc : List FilterOption × Nat) :
    List FilterOption × Nat :=
  tags.foldl
    (fun acc tag =>
      let opt : FilterOption := ⟨acc.2, tag, tag⟩
      if jsIncludes acc.1 opt then (acc.1, acc.2 + 1)
      else (acc.1 ++ [opt], acc.2 + 1))
    acc

/-- Embedding of `tagsFilterOptions` (AccelerateView.vue lines 69-80): walks
`modelData`, and for each tag of each model pushes `{ label: tag, value: tag }`
unless `tags.includes({ label: tag, value: tag })` holds. -/
def tagsFilterOptions (modelData : List Model) : List FilterOption :=
  (modelData.foldl (fun acc model => tagsFilterOptionsAux model.tags acc) ([], 0)).1

/-- JS `Array.prototype.indexOf` on an array of strings: the index of the
first occurrence, or `-1` when absent. -/
def jsIndexOf (xs : List String) (v : String) : Int :=
  (xs.foldl
    (fun acc x =>
      match acc with
      | (found, i) => if found then (found, i) else if x == v then (true, i) else (false, i + 1))
    (false, 0) : Bool × Int)
  |> (fun r => if r.1 then r.2 else -1)

/-- JS truthiness of a number: every number except `0` (and `NaN`) is truthy;
`indexOf` only returns integers, where only `0` is falsy. -/
def jsTruthy (i : Int) : Bool := i != 0

/-- Embedding of `tagsFilter` (AccelerateView.vue lines 82-84):
`row.tags.indexOf(value.toString()) ? false : true`.  The filter value for the
tags column is a string, so `toString` is the identity. -/
def tagsFilter (value : String) (row : Model) : Bool :=
  if jsTruthy (jsIndexOf row.tags value) then false else true

/-- Embedding of `getTagColor` (lines 86-88): looks the tag up in the external
`tagColor` record, passed as a parameter. -/
def getTagColor (tagColor : String → String) (tag : String) : String :=
  tagColor tag

/-- A browser side effect triggered by a handler in this view. -/
inductive Effect
  | consoleLog (args : List String)
  | windowOpen (url : String) (target : String)
deriving DecidableEq, Repr

/-- A dropdown option as built by `getPluginOptions`: its label, key, and the
effects of its `props.onClick` handler. -/
structure DropdownOption where
  label : String
  key : String
  onClickEffects : List Effect
deriving DecidableEq, Repr

/-- Embedding of `getPluginOptions` (lines 109-121): a single option labelled
"Hugging Face" whose click handler runs
`window.open(row.huggingface_url, "_blank")`. -/
def getPluginOptions (row : Model) : List DropdownOption :=
  [⟨"Hugging Face", "github", [Effect.windowOpen row.huggingface_url "_blank"]⟩]

/-- The rendered content of one `NTag` in the tags cell: the `bordered` prop,
the `type` prop (the display color), and the tag text. -/
structure TagVNode where
  bordered : Bool
  tagType : String
  text : String
deriving DecidableEq, Repr

/-- The tags column's `render` function (lines 139-157): one `NTag` per entry
of `row.tags`, bordered, with `type: getTagColor(tag)` and the tag as text. -/
def renderTagsCell (tagColor : String → String) (row : Model) : List TagVNode :=
  row.tags.map (fun tag => ⟨true, getTagColor tagColor tag, tag⟩)

/-- The accelerate column's button click handler (lines 196-198):
`console.log("Accelerate", row.name)`. -/
def accelerateOnClick (row : Model) : List Effect :=
  [Effect.consoleLog ["Accelerate", row.name]]

/-- The filter configuration a column descriptor carries: none, the string
`"default"`, or the `tagsFilter` function. -/
inductive ColumnFilterCfg
  | noFilter
  | defaultFilter
  | tagsFilterFn
deriving DecidableEq, Repr

/-- A table column descriptor as produced by `createColumns2`: title, key,
optional sorter (the string "default" when present), filter configuration,
filter options, and optional fixed width. -/
structure ColumnDef where
  title : String
  key : String
  sorter : Option String
  filterCfg : ColumnFilterCfg
  filterOptions : List FilterOption
  width : Option Nat
deriving DecidableEq, Repr

/-- Embedding of `createColumns2` (lines 123-220): the six column
descriptors, in order.  Note the source's title typo "Acceelerate". -/
def createColumns2 (modelData : List Model) : List ColumnDef :=
  [ ⟨"Name", "name", some "default", ColumnFilterCfg.noFilter, [], none⟩,
    ⟨"Repository", "huggingface_id", some "default", ColumnFilterCfg.noFilter, [], none⟩,
    ⟨"Tags", "tags", none, ColumnFilterCfg.tagsFilterFn, tagsFilterOptions modelData, none⟩,
    ⟨"Example", "example", none, ColumnFilterCfg.noFilter, [], none⟩,
    ⟨"Acceelerate", "accelerate", none, ColumnFilterCfg.noFilter, [], none⟩,
    ⟨"", "menu", none, ColumnFilterCfg.defaultFilter, [], some 60⟩ ]

/-- The `pagination` object (line 226): `{ pageSize: 10 }`. -/
structure Pagination where
  pageSize : Nat
deriving DecidableEq, Repr

/-- The component's reactive state: the `customModel` ref and the three
`reactive` objects `columnsRef`, `dataRef`, `pagination`.  `dataRef` is
`reactive(modelData)`: a reactive proxy over the imported array, so its
contents are the model records themselves. -/
structure ComponentState where
  customModel : String
  columnsRef : List ColumnDef
  dataRef : List Model
  pagination : Pagination
deriving DecidableEq, Repr

/-- The component's state after `<script setup>` runs (lines 90, 222-226):
`customModel = ref("")`, `columnsRef = reactive(createColumns2())`,
`dataRef = reactive(modelData)`, `pagination = reactive({ pageSize: 10 })`. -/
def initState (modelData : List Model) : ComponentState :=
  ⟨"", createColumns2 modelData, modelData, ⟨10⟩⟩

/-- A user interaction available in this view. -/
inductive Event
  | accelerateClick (row : Model)
  | installClick
  | customModelInput (value : String)
  | dropdownHover (row : Model)
  | dropdownOptionClick (row : Model)
deriving DecidableEq, Repr

/-- The view's event handling, as wired in the template and the column
renderers: clicking a row's Accelerate button runs its `onClick`
(`console.log`); the Install button has no handler; typing in the input
updates `customModel` through `v-model`; hovering the menu opens the dropdown
(no handler); clicking the dropdown's option runs that option's
`props.onClick` (`window.open`). -/
def step (s : ComponentState) (e : Event) : ComponentState × List Effect :=
  match e with
  | Event.accelerateClick row => (s, accelerateOnClick row)
  | Event.installClick => (s, [])
  | Event.customModelInput v => ({ s with customModel := v }, [])
  | Event.dropdownHover _ => (s, [])
  | Event.dropdownOptionClick row =>
      (s, ((getPluginOptions row).map DropdownOption.onClickEffects).flatten)

/-- Running a sequence of user interactions from a state. -/
def run (s : ComponentState) (es : List Event) : ComponentState :=
  es.foldl (fun s e => (step s e).1) s

/-- The props bound to `NDataTable` in the template (lines 34-41):
`:columns="columnsRef" :data="dataRef" :pagination="pagination"
:bordered="true" :remote="true"`. -/
structure TableProps where
  columns : List ColumnDef
  data : List Model
  pagination : Pagination
  bordered : Bool
  remote : Bool
deriving DecidableEq, Repr

/-- The `NDataTable` element as a function of the component state. -/
def dataTableProps (s : ComponentState) : TableProps :=
  ⟨s.columnsRef, s.dataRef, s.pagination, true, true⟩

/-- One `NStep` element: its `title` and `description` props. -/
structure StepDef where
  title : String
  description : String
deriving DecidableEq, Repr

/-- The four `NStep` children of `NSteps` in the template (lines 15-31), in
document order. -/
def accelerationSteps : List StepDef :=
  [ ⟨"Start", "Start the acceleration process by clicking the button next to the model"⟩,
    ⟨"Convert to ONNX", "This process might take a while"⟩,
    ⟨"Convert to TensorRT", "This process might take a while"⟩,
    ⟨"Package and cleanup", "This process might take a while"⟩ ]

/-- The `NSteps` element rendered from a component state: its `:current`
prop and its step children.  The template hardcodes `:current="1"` and the
four static `NStep` elements; nothing in the element references state. -/
def renderSteps (_ : ComponentState) : Nat × List StepDef :=
  (1, accelerationSteps)

/-! ## Helper lemmas -/

theorem jsIncludes_fresh (l : List FilterOption) (n : Nat)
    (h : ∀ o ∈ l, o.refId < n) (x : FilterOption) (hx : x.refId = n) :
    jsIncludes l x = false := by
  simp only [jsIncludes, List.any_eq_false]
  intro o ho
  have hlt := h o ho
  simp only [hx, beq_iff_eq]
  omega

theorem tagsFilterOptionsAux_labels (tags : List String) (acc : List FilterOption × Nat)
    (h : ∀ o ∈ acc.1, o.refId < acc.2) :
    (tagsFilterOptionsAux tags acc).1.map FilterOption.label
      = acc.1.map FilterOption.label ++ tags ∧
    ∀ o ∈ (tagsFilterOptionsAux tags acc).1,
      o.refId < (tagsFilterOptionsAux tags acc).2 := by
  induction tags generalizing acc with
  | nil => simpa [tagsFilterOptionsAux] using h
  | cons t ts ih =>
    have hinc : jsIncludes acc.1 ⟨acc.2, t, t⟩ = false :=
      jsIncludes_fresh acc.1 acc.2 h _ rfl
    have hstep : tagsFilterOptionsAux (t :: ts) acc
        = tagsFilterOptionsAux ts (acc.1 ++ [⟨acc.2, t, t⟩], acc.2 + 1) := by
      simp [tagsFilterOptionsAux, hinc]
    rw [hstep]
    have h2 : ∀ o ∈ (acc.1 ++ [(⟨acc.2, t, t⟩ : FilterOption)]), o.refId < acc.2 + 1 := by
      intro o ho
      rcases List.mem_append.mp ho with h1 | h1
      · exact Nat.lt_succ_of_lt (h o h1)
      · simp only [List.mem_singleton] at h1
        subst h1
        exact Nat.lt_succ_self _
    obtain ⟨hl, hf⟩ := ih (acc.1 ++ [⟨acc.2, t, t⟩], acc.2 + 1) h2
    refine ⟨?_, hf⟩
    rw [hl]
    simp

theorem tagsFilterOptions_models_labels (models : List Model) (acc : List FilterOption × Nat)
    (h : ∀ o ∈ acc.1, o.refId < acc.2) :
    (models.foldl (fun acc model => tagsFilterOptionsAux model.tags acc) acc).1.map
        FilterOption.label
      = acc.1.map FilterOption.label ++ (models.map Model.tags).flatten ∧
    ∀ o ∈ (models.foldl (fun acc model => tagsFilterOptionsAux model.tags acc) acc).1,
      o.refId < (models.foldl (fun acc model => tagsFilterOptionsAux model.tags acc) acc).2 := by
  induction models generalizing acc with
  | nil => simpa using h
  | cons m ms ih =>
    simp only [List.foldl_cons]
    obtain ⟨hl, hf⟩ := tagsFilterOptionsAux_labels m.tags acc h
    obtain ⟨hl2, hf2⟩ := ih (tagsFilterOptionsAux m.tags acc) hf
    refine ⟨?_, hf2⟩
    rw [hl2, hl]
    simp

theorem step_preserves_dataRef (s : ComponentState) (e : Event) :
    (step s e).1.dataRef = s.dataRef := by
  cases e <;> rfl

/-! ## Claim theorems -/

/-- A concrete model row carrying the tag "anime" at index 1 of its tags. -/
def animeRow : Model :=
  ⟨"Anything V3", "Linaqruf/anything-v3.0",
   "https://huggingface.co/Linaqruf/anything-v3.0",
   ["stable-diffusion", "anime"], "https://example.invalid/anything-v3.png"⟩

/-- Claim C1 (code bug, evaluated at the failing input): the tag "anime" is an
element of the row's tags, yet `tagsFilter` returns `false` for it, because
`row.tags.indexOf(value) ? false : true` treats every nonzero index (and `-1`)
as truthy: the filter keeps a row exactly when the selected tag is the FIRST
element of `row.tags`, not when it is a member.  Here "anime" sits at index 1,
so the row is dropped; the also shown first-tag and absent-tag evaluations
confirm that behavior. -/
theorem C1_tagsFilter_rejects_member_tag :
    ("anime" ∈ animeRow.tags ∧ tagsFilter "anime" animeRow = false) ∧
    tagsFilter "stable-diffusion" animeRow = true ∧
    tagsFilter "absent-tag" animeRow = false := by
  refine ⟨⟨?_, rfl⟩, rfl, rfl⟩
  decide

/-- Claim C2: the `:data` prop bound to `NDataTable` is `dataRef`, the
reactive proxy over the imported `modelData` array, so the data array the
table receives equals `modelData` element for element: one row per model
record, none dropped, duplicated or synthesized. -/
theorem C2_table_data_is_modelData (modelData : List Model) :
    (dataTableProps (initState modelData)).data = modelData := rfl

/-- Claim C3 (code bug, evaluated on the configuration): the columns do carry
client-side sorters (`"default"` on name and huggingface_id) and the
`tagsFilter` function on the tags column, but the table is bound with
`:remote="true"`, the configuration under which the naive-ui widget does NOT
itself apply column sorters/filters to the data — contradicting the claim
that the widget is configured to filter/sort the in-memory data itself. -/
theorem C3_table_remote_true (modelData : List Model) :
    (dataTableProps (initState modelData)).remote = true ∧
    (dataTableProps (initState modelData)).columns.map ColumnDef.sorter
      = [some "default", some "default", none, none, none, none] ∧
    (dataTableProps (initState modelData)).columns.map ColumnDef.filterCfg
      = [ColumnFilterCfg.noFilter, ColumnFilterCfg.noFilter, ColumnFilterCfg.tagsFilterFn,
         ColumnFilterCfg.noFilter, ColumnFilterCfg.noFilter, ColumnFilterCfg.defaultFilter] :=
  ⟨rfl, rfl, rfl⟩

/-- Claim C4: clicking a row's Accelerate button produces exactly one effect,
a `console.log` with arguments "Accelerate" and `row.name`, and returns the
component state unchanged (same `customModel`, `columnsRef`, `dataRef`,
`pagination`, and model records). -/
theorem C4_accelerate_click_only_logs (s : ComponentState) (row : Model) :
    step s (Event.accelerateClick row)
      = (s, [Effect.consoleLog ["Accelerate", row.name]]) := rfl

/-- Claim C5: after any sequence of user interactions, the progress indicator
still shows `current = 1` and the same four steps, titled Start, Convert to
ONNX, Convert to TensorRT, Package and cleanup, in that order. -/
theorem C5_progress_indicator_static (modelData : List Model) (es : List Event) :
    (renderSteps (run (initState modelData) es)).1 = 1 ∧
    (renderSteps (run (initState modelData) es)).2.map StepDef.title
      = ["Start", "Convert to ONNX", "Convert to TensorRT", "Package and cleanup"] :=
  ⟨rfl, rfl⟩

/-- Claim C6: the tags cell renders, for each tag of the row in order, an
`NTag` whose text is the tag and whose `type` (display color) is exactly the
external mapping's value `tagColor[tag]`. -/
theorem C6_tag_cell_uses_tagColor (tagColor : String → String) (row : Model) :
    (renderTagsCell tagColor row).map (fun c => (c.text, c.tagType))
      = row.tags.map (fun tag => (tag, tagColor tag)) := by
  simp [renderTagsCell, getTagColor]

/-- Claim C7: no operation of this file mutates the imported model array:
after any sequence of user interactions (accelerate clicks, install clicks,
input edits, dropdown use), the state's `dataRef` — the reactive view of
`modelData` and its records — is exactly what it started as, and initially it
is the imported array itself. -/
theorem C7_modelData_never_mutated (s : ComponentState) (es : List Event)
    (modelData : List Model) :
    (run s es).dataRef = s.dataRef ∧ (initState modelData).dataRef = modelData := by
  refine ⟨?_, rfl⟩
  induction es generalizing s with
  | nil => rfl
  | cons e es ih =>
    have hrun : run s (e :: es) = run (step s e).1 es := rfl
    rw [hrun, ih (step s e).1, step_preserves_dataRef]

/-- Claim C8: `getPluginOptions(row)` is exactly one dropdown option, labelled
"Hugging Face", whose click handler's sole effect opens `row.huggingface_url`
in a new tab (`window.open(url, "_blank")`); no other action is exposed. -/
theorem C8_plugin_options_single_hf (row : Model) :
    getPluginOptions row
      = [⟨"Hugging Face", "github", [Effect.windowOpen row.huggingface_url "_blank"]⟩] := rfl

/-- Claim C9: the duplicate check in `tagsFilterOptions` compares freshly
constructed option objects by reference and never matches, so the produced
option labels are exactly the concatenation of every model's tags (one option
per (model, tag) occurrence, a tag shared by k models appearing k times), and
the list's length is the sum of `tags.length` over all models. -/
theorem C9_filter_options_one_per_occurrence (modelData : List Model) :
    (tagsFilterOptions modelData).map FilterOption.label
      = (modelData.map Model.tags).flatten ∧
    (tagsFilterOptions modelData).length
      = (modelData.map (fun m => m.tags.length)).sum := by
  obtain ⟨hl, -⟩ := tagsFilterOptions_models_labels modelData ([], 0) (by intro o ho; simp at ho)
  have hlab : (tagsFilterOptions modelData).map FilterOption.label
      = (modelData.map Model.tags).flatten := by
    simpa [tagsFilterOptions] using hl
  refine ⟨hlab, ?_⟩
  have hlen : (tagsFilterOptions modelData).length
      = ((tagsFilterOptions modelData).map FilterOption.label).length := by
    simp
  rw [hlen, hlab]
  simp only [List.length_flatten, List.map_map]
  rfl

/-- Claim C10: the Install button has no click handler, so clicking it changes
nothing and triggers no effect; typing any text only sets the local
`customModel` ref, which starts as the empty string; and no other operation of
the file reads `customModel` — every event's effects and every other state
field are unchanged if `customModel` is replaced by an arbitrary value. -/
theorem C10_install_noop_customModel_unused (modelData : List Model) :
    (initState modelData).customModel = "" ∧
    (∀ s : ComponentState, step s Event.installClick = (s, [])) ∧
    (∀ (s : ComponentState) (v : String),
      step s (Event.customModelInput v) = ({ s with customModel := v }, [])) ∧
    (∀ (s : ComponentState) (v : String) (e : Event),
      (step { s with customModel := v } e).2 = (step s e).2 ∧
      (step { s with customModel := v } e).1.dataRef = (step s e).1.dataRef ∧
      (step { s with customModel := v } e).1.columnsRef = (step s e).1.columnsRef ∧
      (step { s with customModel := v } e).1.pagination = (step s e).1.pagination) := by
  refine ⟨rfl, fun s => rfl, fun s v => rfl, fun s v e => ?_⟩
  cases e <;> exact ⟨rfl, rfl, rfl, rfl⟩
